import Mathlib

/-!
# Verification of the RDK-B VLAN HAL (`vlan_hal.h`)

Shallow embedding of the VLAN hardware abstraction layer.  The repository
ships the interface header `src/include/vlan_hal.h` (declarations, return
code macros and doc comments); the behaviour of each operation is modelled
from the specification document, which describes the Config Store, the
bridge state prober, the topology mutator and the orchestrator operations.

State is explicit: a `VlanState` carries the Config Store (an ordered
association list from group name to VLAN ID text, `vlan_vlanidconfiguration_t`
linked list in the header) and the live Linux bridge state (bridges with
their tagged member interfaces).  Kernel/Gateway steps can fail; each
mutating operation takes a `kernelOk` flag describing whether the
Gateway-level steps of that call succeed.
-/

/-- `RETURN_OK` macro from `vlan_hal.h` (line 70). -/
def RETURN_OK : Int := 0

/-- `RETURN_ERR` macro from `vlan_hal.h` (line 74). -/
def RETURN_ERR : Int := -1

/-- One persisted group-to-VLAN binding: `groupName` paired with `vlanID`
(the `vlan_vlanidconfiguration_t` node of the header, minus the link). -/
abbrev ConfigEntry := String × String

/-- The Config Store: the ordered singly-linked list of bindings. -/
abbrev ConfigStore := List ConfigEntry

/-- Live and persisted VLAN state: the Config Store plus the live Linux
bridge state, each bridge being a name with its member sub-interfaces
`(ifName, vlanID)`. -/
structure VlanState where
  configStore : ConfigStore
  bridges : List (String × List (String × String))
deriving Repr, DecidableEq

/-- Decimal digit value of a character, `none` for a non-digit
(the digit test of a C `atoi`-style parse of the VLAN ID text). -/
def digitVal? (c : Char) : Option Nat :=
  if c.isDigit then some (c.toNat - Char.toNat '0') else none

/-- Accumulating decimal parse of a character list; `none` on the first
non-digit. -/
def parseDigitsAux (acc : Nat) : List Char → Option Nat
  | [] => some acc
  | c :: cs =>
    match digitVal? c with
    | some d => parseDigitsAux (acc * 10 + d) cs
    | none => none

/-- Parse a VLAN ID string as a decimal natural number; `none` for the
empty string or any non-digit character. -/
def vlanIdNat? (s : String) : Option Nat :=
  if s.data.isEmpty then none else parseDigitsAux 0 s.data

/-- Validation of a VLAN ID string: it must parse as an integer in
[1,4094].  Modelled from the spec: `addGroup` must "validate
`defaultVlanID` is an integer in [1,4094] (else fail as
invalid-parameter)". -/
def isValidVlanId (s : String) : Bool :=
  match vlanIdNat? s with
  | some n => decide (1 ≤ n) && decide (n ≤ 4094)
  | none => false

/-- Modelled from the spec: `insert_VLAN_ConfigEntry` (declared at
`vlan_hal.h:465`, implementation not in the repository).  Adds or updates
the binding; idempotent; rejects an empty `groupName`. -/
def insert_VLAN_ConfigEntry (groupName vlanID : String) (store : ConfigStore) :
    Int × ConfigStore :=
  if groupName = "" then
    (RETURN_ERR, store)
  else if store.any (fun e => e.1 == groupName) then
    (RETURN_OK, store.map (fun e => if e.1 == groupName then (groupName, vlanID) else e))
  else
    (RETURN_OK, store ++ [(groupName, vlanID)])

/-- Modelled from the spec: `delete_VLAN_ConfigEntry` (declared at
`vlan_hal.h:486`, implementation not in the repository).  Removes the
binding if present; succeeds (no-op) if absent. -/
def delete_VLAN_ConfigEntry (groupName : String) (store : ConfigStore) :
    Int × ConfigStore :=
  (RETURN_OK, store.filter (fun e => !(e.1 == groupName)))

/-- Modelled from the spec: `get_vlanId_for_GroupName` (declared at
`vlan_hal.h:511`, implementation not in the repository).  Pure Config
Store lookup; fails with not-found if absent.  The C output parameter is
modelled as an `Option String`: `none` means nothing was written. -/
def get_vlanId_for_GroupName (groupName : String) (store : ConfigStore) :
    Int × Option String :=
  match store.find? (fun e => e.1 == groupName) with
  | some e => (RETURN_OK, some e.2)
  | none => (RETURN_ERR, none)

/-- Modelled from the spec: `print_all_vlanId_Configuration` (declared at
`vlan_hal.h:528`).  Read-only diagnostic dump of the store; always
succeeds (the output sink is modelled as reliable). -/
def print_all_vlanId_Configuration (_store : ConfigStore) : Int :=
  RETURN_OK

/-- Does a bridge by that exact name currently exist?  (`bridgeExists`
prober of the spec.) -/
def bridgeExistsB (br_name : String) (st : VlanState) : Bool :=
  st.bridges.any (fun b => b.1 == br_name)

/-- Modelled from the spec: `_is_this_group_available_in_linux_bridge`
(declared at `vlan_hal.h:375`).  `RETURN_OK` iff the bridge exists. -/
def _is_this_group_available_in_linux_bridge (br_name : String) (st : VlanState) : Int :=
  if bridgeExistsB br_name st then RETURN_OK else RETURN_ERR

/-- Is `(if_name, vlanID)` a member of the specific bridge `br_name`?
(`interfaceInGivenBridge` prober of the spec.) -/
def memberInBridgeB (if_name br_name vlanID : String) (st : VlanState) : Bool :=
  match st.bridges.find? (fun b => b.1 == br_name) with
  | some b => b.2.any (fun m => m.1 == if_name && m.2 == vlanID)
  | none => false

/-- Modelled from the spec:
`_is_this_interface_available_in_given_linux_bridge` (declared at
`vlan_hal.h:417`).  `RETURN_OK` iff the specific bridge has that tagged
member. -/
def _is_this_interface_available_in_given_linux_bridge
    (if_name br_name vlanID : String) (st : VlanState) : Int :=
  if memberInBridgeB if_name br_name vlanID st then RETURN_OK else RETURN_ERR

/-- Is `(if_name, vlanID)` a member of any bridge?  (`interfaceInAnyBridge`
prober of the spec.) -/
def interfaceInAnyBridgeB (if_name vlanID : String) (st : VlanState) : Bool :=
  st.bridges.any (fun b => b.2.any (fun m => m.1 == if_name && m.2 == vlanID))

/-- Modelled from the spec: `_is_this_interface_available_in_linux_bridge`
(declared at `vlan_hal.h:394`). -/
def _is_this_interface_available_in_linux_bridge
    (if_name vlanID : String) (st : VlanState) : Int :=
  if interfaceInAnyBridgeB if_name vlanID st then RETURN_OK else RETURN_ERR

/-- Is the interface already tagged, in any bridge, with a VLAN different
from `vlanID`?  Used for the conflicting-membership check of
`addInterface`. -/
def interfaceTaggedDifferentlyB (if_name vlanID : String) (st : VlanState) : Bool :=
  st.bridges.any (fun b => b.2.any (fun m => m.1 == if_name && !(m.2 == vlanID)))

/-- Mutator step: attach the tagged sub-interface to the named bridge. -/
def addMember (br_name if_name vlanID : String) (st : VlanState) : VlanState :=
  { st with bridges := st.bridges.map (fun b =>
      if b.1 == br_name then (b.1, b.2 ++ [(if_name, vlanID)]) else b) }

/-- Mutator step: detach the tagged sub-interface from the named bridge. -/
def removeMember (br_name if_name vlanID : String) (st : VlanState) : VlanState :=
  { st with bridges := st.bridges.map (fun b =>
      if b.1 == br_name then
        (b.1, b.2.filter (fun m => !(m.1 == if_name && m.2 == vlanID)))
      else b) }

/-- Modelled from the spec: `vlan_hal_addGroup` (declared at
`vlan_hal.h:206`, implementation not in the repository).  Validates the
VLAN ID range; if the bridge exists and the Config Store records the same
VLAN ID this is a no-op success; a same-name different-VLAN state is a
conflict failure; otherwise the bridge is created and the binding
inserted.  `kernelOk` models the success of the Gateway bridge-creation
step. -/
def vlan_hal_addGroup (groupName default_vlanID : String) (kernelOk : Bool)
    (st : VlanState) : Int × VlanState :=
  if !(isValidVlanId default_vlanID) then
    (RETURN_ERR, st)
  else if bridgeExistsB groupName st then
    match st.configStore.find? (fun e => e.1 == groupName) with
    | some e => if e.2 == default_vlanID then (RETURN_OK, st) else (RETURN_ERR, st)
    | none => (RETURN_ERR, st)
  else if kernelOk then
    let st1 : VlanState := { st with bridges := st.bridges ++ [(groupName, [])] }
    let r := insert_VLAN_ConfigEntry groupName default_vlanID st1.configStore
    (r.1, { st1 with configStore := r.2 })
  else
    (RETURN_ERR, st)

/-- Modelled from the spec: `vlan_hal_delGroup` (declared at
`vlan_hal.h:229`, implementation not in the repository).  If the bridge
does not exist, succeed (no-op).  Else strip members and destroy the
bridge (`kernelOk` models the success of these Gateway steps), and only
after the kernel-level deletion succeeds delete the Config Store entry;
a kernel failure is surfaced with the state unchanged. -/
def vlan_hal_delGroup (groupName : String) (kernelOk : Bool)
    (st : VlanState) : Int × VlanState :=
  if !(bridgeExistsB groupName st) then
    (RETURN_OK, st)
  else if kernelOk then
    let st1 : VlanState := { st with bridges := st.bridges.filter (fun b => !(b.1 == groupName)) }
    let r := delete_VLAN_ConfigEntry groupName st1.configStore
    (r.1, { st1 with configStore := r.2 })
  else
    (RETURN_ERR, st)

/-- Modelled from the spec: `vlan_hal_addInterface` (declared at
`vlan_hal.h:261`, implementation not in the repository).  Fails if the
group's bridge does not exist; validates the VLAN ID range; no-op
success if already a member with that VLAN; conflicting membership (same
interface, different VLAN) is an error; otherwise tag and attach. -/
def vlan_hal_addInterface (groupName ifName vlanID : String) (kernelOk : Bool)
    (st : VlanState) : Int × VlanState :=
  if !(bridgeExistsB groupName st) then
    (RETURN_ERR, st)
  else if !(isValidVlanId vlanID) then
    (RETURN_ERR, st)
  else if memberInBridgeB ifName groupName vlanID st then
    (RETURN_OK, st)
  else if interfaceTaggedDifferentlyB ifName vlanID st then
    (RETURN_ERR, st)
  else if kernelOk then
    (RETURN_OK, addMember groupName ifName vlanID st)
  else
    (RETURN_ERR, st)

/-- Modelled from the spec: `vlan_hal_delInterface` (declared at
`vlan_hal.h:292`, implementation not in the repository).  If the
interface is not a member of the group, succeed (no-op); else detach and
untag. -/
def vlan_hal_delInterface (groupName ifName vlanID : String) (kernelOk : Bool)
    (st : VlanState) : Int × VlanState :=
  if !(memberInBridgeB ifName groupName vlanID st) then
    (RETURN_OK, st)
  else if kernelOk then
    (RETURN_OK, removeMember groupName ifName vlanID st)
  else
    (RETURN_ERR, st)

/-- Modelled from the spec: `vlan_hal_delete_all_Interfaces` (declared at
`vlan_hal.h:357`, implementation not in the repository).  Removes every
member interface of the group; fails if the group does not exist. -/
def vlan_hal_delete_all_Interfaces (groupName : String) (kernelOk : Bool)
    (st : VlanState) : Int × VlanState :=
  if !(bridgeExistsB groupName st) then
    (RETURN_ERR, st)
  else if kernelOk then
    (RETURN_OK, { st with bridges := st.bridges.map (fun b =>
        if b.1 == groupName then (b.1, []) else b) })
  else
    (RETURN_ERR, st)

/-- Modelled from the spec: `vlan_hal_printGroup` (declared at
`vlan_hal.h:314`).  Read-only diagnostic dump; fails only if the target
group cannot be found. -/
def vlan_hal_printGroup (groupName : String) (st : VlanState) : Int :=
  if bridgeExistsB groupName st then RETURN_OK else RETURN_ERR

/-- Modelled from the spec: `vlan_hal_printAllGroup` (declared at
`vlan_hal.h:333`).  Read-only diagnostic dump of all groups; always
succeeds (the output sink is modelled as reliable). -/
def vlan_hal_printAllGroup (_st : VlanState) : Int :=
  RETURN_OK

/-- Well-formed state: at most one Config Store entry per group name and
at most one live bridge per name. -/
def wellFormed (st : VlanState) : Prop :=
  (st.configStore.map Prod.fst).Nodup ∧ (st.bridges.map Prod.fst).Nodup

/-- A Config Store operation: one `insert_VLAN_ConfigEntry` or
`delete_VLAN_ConfigEntry` call. -/
inductive ConfigOp where
  | ins : String → String → ConfigOp
  | del : String → ConfigOp

/-- Apply one Config Store operation (state part only). -/
def applyConfigOp : ConfigOp → ConfigStore → ConfigStore
  | ConfigOp.ins g v, s => (insert_VLAN_ConfigEntry g v s).2
  | ConfigOp.del g, s => (delete_VLAN_ConfigEntry g s).2

/-- Apply a sequence of Config Store operations, oldest first. -/
def applyConfigOps : List ConfigOp → ConfigStore → ConfigStore
  | [], s => s
  | op :: ops, s => applyConfigOps ops (applyConfigOp op s)

/-! ## Helper lemmas -/

lemma insert_ret (g v : String) (s : ConfigStore) :
    (insert_VLAN_ConfigEntry g v s).1 = RETURN_OK ∨
    (insert_VLAN_ConfigEntry g v s).1 = RETURN_ERR := by
  unfold insert_VLAN_ConfigEntry
  repeat' split
  all_goals first | exact Or.inl rfl | exact Or.inr rfl

lemma addGroup_ret (g v : String) (k : Bool) (st : VlanState) :
    (vlan_hal_addGroup g v k st).1 = RETURN_OK ∨
    (vlan_hal_addGroup g v k st).1 = RETURN_ERR := by
  unfold vlan_hal_addGroup
  repeat' split
  all_goals first
    | exact Or.inl rfl
    | exact Or.inr rfl
    | exact insert_ret g v st.configStore

lemma delGroup_ret (g : String) (k : Bool) (st : VlanState) :
    (vlan_hal_delGroup g k st).1 = RETURN_OK ∨
    (vlan_hal_delGroup g k st).1 = RETURN_ERR := by
  unfold vlan_hal_delGroup
  repeat' split
  all_goals first | exact Or.inl rfl | exact Or.inr rfl

lemma addInterface_ret (g i v : String) (k : Bool) (st : VlanState) :
    (vlan_hal_addInterface g i v k st).1 = RETURN_OK ∨
    (vlan_hal_addInterface g i v k st).1 = RETURN_ERR := by
  unfold vlan_hal_addInterface
  repeat' split
  all_goals first | exact Or.inl rfl | exact Or.inr rfl

lemma delInterface_ret (g i v : String) (k : Bool) (st : VlanState) :
    (vlan_hal_delInterface g i v k st).1 = RETURN_OK ∨
    (vlan_hal_delInterface g i v k st).1 = RETURN_ERR := by
  unfold vlan_hal_delInterface
  repeat' split
  all_goals first | exact Or.inl rfl | exact Or.inr rfl

lemma delAllInterfaces_ret (g : String) (k : Bool) (st : VlanState) :
    (vlan_hal_delete_all_Interfaces g k st).1 = RETURN_OK ∨
    (vlan_hal_delete_all_Interfaces g k st).1 = RETURN_ERR := by
  unfold vlan_hal_delete_all_Interfaces
  repeat' split
  all_goals first | exact Or.inl rfl | exact Or.inr rfl

lemma printGroup_ret (g : String) (st : VlanState) :
    vlan_hal_printGroup g st = RETURN_OK ∨ vlan_hal_printGroup g st = RETURN_ERR := by
  unfold vlan_hal_printGroup
  split
  · exact Or.inl rfl
  · exact Or.inr rfl

lemma get_vlanId_ret (g : String) (s : ConfigStore) :
    (get_vlanId_for_GroupName g s).1 = RETURN_OK ∨
    (get_vlanId_for_GroupName g s).1 = RETURN_ERR := by
  unfold get_vlanId_for_GroupName
  split
  · exact Or.inl rfl
  · exact Or.inr rfl

/-! ## Claim theorems -/

/-- C4: For every groupName whose bridge does not exist, `vlan_hal_delGroup`
returns success and leaves all state (Config Store and live bridge state)
unchanged. -/
theorem delGroup_nonexistent_noop (groupName : String) (kernelOk : Bool)
    (st : VlanState) (h : bridgeExistsB groupName st = false) :
    vlan_hal_delGroup groupName kernelOk st = (RETURN_OK, st) := by
  simp [vlan_hal_delGroup, h]

theorem delGroup_nonexistent_noop_witness :
    bridgeExistsB "brlan9" ⟨[("brlan0", "100")], [("brlan0", [])]⟩ = false ∧
    vlan_hal_delGroup "brlan9" true ⟨[("brlan0", "100")], [("brlan0", [])]⟩ =
      (RETURN_OK, ⟨[("brlan0", "100")], [("brlan0", [])]⟩) :=
  ⟨by decide,
   delGroup_nonexistent_noop "brlan9" true ⟨[("brlan0", "100")], [("brlan0", [])]⟩ (by decide)⟩

/-- C5: The Config Store entry for groupName is removed only after the
kernel-level bridge deletion has succeeded: a kernel failure surfaces as
`RETURN_ERR` with the state (hence the entry) unchanged, and if the entry
disappeared then the kernel step had succeeded and the call returned
success. -/
theorem delGroup_config_removed_only_after_kernel (groupName : String) (st : VlanState) :
    (bridgeExistsB groupName st = true →
      vlan_hal_delGroup groupName false st = (RETURN_ERR, st)) ∧
    (∀ kernelOk : Bool,
      st.configStore.any (fun e => e.1 == groupName) = true →
      (vlan_hal_delGroup groupName kernelOk st).2.configStore.any
        (fun e => e.1 == groupName) = false →
      kernelOk = true ∧
      (vlan_hal_delGroup groupName kernelOk st).1 = RETURN_OK) := by
  constructor
  · intro h
    simp [vlan_hal_delGroup, h]
  · intro k hin hout
    simp only [List.any_eq_true] at hin
    obtain ⟨e, hmem, hbeq⟩ := hin
    by_cases hb : bridgeExistsB groupName st = true
    · cases k
      · simp [vlan_hal_delGroup, hb] at hout
        exact absurd (beq_iff_eq.mp hbeq) (hout e.1 e.2 hmem)
      · exact ⟨rfl, by simp [vlan_hal_delGroup, hb, delete_VLAN_ConfigEntry]⟩
    · simp only [Bool.not_eq_true] at hb
      simp [vlan_hal_delGroup, hb] at hout
      exact absurd (beq_iff_eq.mp hbeq) (hout e.1 e.2 hmem)

theorem delGroup_config_removed_only_after_kernel_witness :
    vlan_hal_delGroup "brlan0" false ⟨[("brlan0", "100")], [("brlan0", [])]⟩ =
      (RETURN_ERR, ⟨[("brlan0", "100")], [("brlan0", [])]⟩) ∧
    (true = true ∧
      (vlan_hal_delGroup "brlan0" true ⟨[("brlan0", "100")], [("brlan0", [])]⟩).1 = RETURN_OK) :=
  ⟨(delGroup_config_removed_only_after_kernel "brlan0"
      ⟨[("brlan0", "100")], [("brlan0", [])]⟩).1 (by decide),
   (delGroup_config_removed_only_after_kernel "brlan0"
      ⟨[("brlan0", "100")], [("brlan0", [])]⟩).2 true (by decide) (by decide)⟩

/-- C7: Config Store delete always returns success, leaves no entry for the
key behind, and is a no-op when no binding for that key exists. -/
theorem delete_configEntry_noop_on_missing (groupName : String) (store : ConfigStore) :
    (delete_VLAN_ConfigEntry groupName store).1 = RETURN_OK ∧
    (delete_VLAN_ConfigEntry groupName store).2.any (fun e => e.1 == groupName) = false ∧
    (store.any (fun e => e.1 == groupName) = false →
      (delete_VLAN_ConfigEntry groupName store).2 = store) := by
  refine ⟨rfl, ?_, ?_⟩
  · simp [delete_VLAN_ConfigEntry, List.any_eq_true, List.mem_filter]
  · intro h
    simp only [delete_VLAN_ConfigEntry]
    rw [List.filter_eq_self]
    intro a ha
    simp only [List.any_eq_false] at h
    simpa using h a ha

theorem delete_configEntry_noop_on_missing_witness :
    (delete_VLAN_ConfigEntry "brlan9" [("brlan0", "100")]).1 = RETURN_OK ∧
    (delete_VLAN_ConfigEntry "brlan9" [("brlan0", "100")]).2 = [("brlan0", "100")] :=
  ⟨(delete_configEntry_noop_on_missing "brlan9" [("brlan0", "100")]).1,
   (delete_configEntry_noop_on_missing "brlan9" [("brlan0", "100")]).2.2 (by decide)⟩

/-- C8: Config Store lookup on a missing groupName fails with not-found and
writes nothing to the output (modelled as `none`); on a present entry it
returns success and the bound VLAN ID. -/
theorem get_vlanId_notfound_no_default (groupName : String) (store : ConfigStore) :
    (store.find? (fun e => e.1 == groupName) = none →
      get_vlanId_for_GroupName groupName store = (RETURN_ERR, none)) ∧
    (∀ e, store.find? (fun e2 => e2.1 == groupName) = some e →
      get_vlanId_for_GroupName groupName store = (RETURN_OK, some e.2)) := by
  constructor
  · intro h
    simp [get_vlanId_for_GroupName, h]
  · intro e h
    simp [get_vlanId_for_GroupName, h]

theorem get_vlanId_notfound_no_default_witness :
    get_vlanId_for_GroupName "brlan9" [("brlan0", "100")] = (RETURN_ERR, none) ∧
    get_vlanId_for_GroupName "brlan0" [("brlan0", "100")] = (RETURN_OK, some "100") :=
  ⟨(get_vlanId_notfound_no_default "brlan9" [("brlan0", "100")]).1 (by decide),
   (get_vlanId_notfound_no_default "brlan0" [("brlan0", "100")]).2 ("brlan0", "100") (by decide)⟩

/-- C10: Every status-returning operation returns exactly `RETURN_OK` (0) or
`RETURN_ERR` (-1), never any other value. -/
theorem all_operations_return_binary_status :
    (∀ g v k st, (vlan_hal_addGroup g v k st).1 = RETURN_OK ∨
      (vlan_hal_addGroup g v k st).1 = RETURN_ERR) ∧
    (∀ g k st, (vlan_hal_delGroup g k st).1 = RETURN_OK ∨
      (vlan_hal_delGroup g k st).1 = RETURN_ERR) ∧
    (∀ g i v k st, (vlan_hal_addInterface g i v k st).1 = RETURN_OK ∨
      (vlan_hal_addInterface g i v k st).1 = RETURN_ERR) ∧
    (∀ g i v k st, (vlan_hal_delInterface g i v k st).1 = RETURN_OK ∨
      (vlan_hal_delInterface g i v k st).1 = RETURN_ERR) ∧
    (∀ g k st, (vlan_hal_delete_all_Interfaces g k st).1 = RETURN_OK ∨
      (vlan_hal_delete_all_Interfaces g k st).1 = RETURN_ERR) ∧
    (∀ g st, vlan_hal_printGroup g st = RETURN_OK ∨
      vlan_hal_printGroup g st = RETURN_ERR) ∧
    (∀ st, vlan_hal_printAllGroup st = RETURN_OK ∨
      vlan_hal_printAllGroup st = RETURN_ERR) ∧
    (∀ g v s, (insert_VLAN_ConfigEntry g v s).1 = RETURN_OK ∨
      (insert_VLAN_ConfigEntry g v s).1 = RETURN_ERR) ∧
    (∀ g s, (delete_VLAN_ConfigEntry g s).1 = RETURN_OK ∨
      (delete_VLAN_ConfigEntry g s).1 = RETURN_ERR) ∧
    (∀ g s, (get_vlanId_for_GroupName g s).1 = RETURN_OK ∨
      (get_vlanId_for_GroupName g s).1 = RETURN_ERR) ∧
    (∀ s, print_all_vlanId_Configuration s = RETURN_OK ∨
      print_all_vlanId_Configuration s = RETURN_ERR) :=
  ⟨fun g v k st => addGroup_ret g v k st,
   fun g k st => delGroup_ret g k st,
   fun g i v k st => addInterface_ret g i v k st,
   fun g i v k st => delInterface_ret g i v k st,
   fun g k st => delAllInterfaces_ret g k st,
   fun g st => printGroup_ret g st,
   fun _ => Or.inl rfl,
   fun g v s => insert_ret g v s,
   fun _ _ => Or.inl rfl,
   fun g s => get_vlanId_ret g s,
   fun _ => Or.inl rfl⟩

lemma insert_find? (g v : String) (store : ConfigStore) (hg : g ≠ "") :
    ((insert_VLAN_ConfigEntry g v store).2).find? (fun e => e.1 == g) = some (g, v) := by
  unfold insert_VLAN_ConfigEntry
  rw [if_neg hg]
  split
  case isTrue h =>
    simp only
    rw [List.find?_map]
    have hcomp : ((fun e : ConfigEntry => e.1 == g) ∘
        (fun e : ConfigEntry => if e.1 == g then (g, v) else e)) =
        fun e : ConfigEntry => e.1 == g := by
      funext e
      by_cases he : (e.1 == g) = true
      · simp [he, Function.comp]
      · simp [he, Function.comp]
    rw [hcomp]
    obtain ⟨e0, he0⟩ := Option.isSome_iff_exists.mp
      (List.find?_isSome.mpr (List.any_eq_true.mp h))
    rw [he0]
    have hp := List.find?_some he0
    have he : e0.1 = g := beq_iff_eq.mp hp
    simp [he]
  case isFalse h =>
    simp only
    rw [List.find?_append]
    have h1 : store.find? (fun e => e.1 == g) = none := by
      rw [List.find?_eq_none]
      intro x hx hpx
      exact h (List.any_eq_true.mpr ⟨x, hx, hpx⟩)
    rw [h1]
    simp

lemma addGroup_second_conflict (g v1 v2 : String) (k2 : Bool) (st1 : VlanState)
    (hbr : bridgeExistsB g st1 = true)
    (hfind : st1.configStore.find? (fun e => e.1 == g) = some (g, v1))
    (hne : v1 ≠ v2) :
    vlan_hal_addGroup g v2 k2 st1 = (RETURN_ERR, st1) := by
  unfold vlan_hal_addGroup
  by_cases hv2 : isValidVlanId v2 = true
  · simp [hv2, hbr, hfind, hne]
  · simp [hv2]

/-- C3: `vlan_hal_addGroup` validates the VLAN ID range: "0", "4095" and any
value outside [1,4094] fail with the invalid-parameter error, while the
boundary values "1" and "4094" succeed (on a fresh group with the Gateway
step succeeding). -/
theorem addGroup_range_validation (g : String) (k : Bool) (st : VlanState) :
    (vlan_hal_addGroup g "0" k st).1 = RETURN_ERR ∧
    (vlan_hal_addGroup g "4095" k st).1 = RETURN_ERR ∧
    (∀ v, isValidVlanId v = false → (vlan_hal_addGroup g v k st).1 = RETURN_ERR) ∧
    (g ≠ "" → bridgeExistsB g st = false →
      (vlan_hal_addGroup g "1" true st).1 = RETURN_OK ∧
      (vlan_hal_addGroup g "4094" true st).1 = RETURN_OK) := by
  have hgen : ∀ v, isValidVlanId v = false → (vlan_hal_addGroup g v k st).1 = RETURN_ERR := by
    intro v hv
    unfold vlan_hal_addGroup
    simp [hv]
  have hok : ∀ v, isValidVlanId v = true → g ≠ "" → bridgeExistsB g st = false →
      (vlan_hal_addGroup g v true st).1 = RETURN_OK := by
    intro v hv hg hbr
    unfold vlan_hal_addGroup insert_VLAN_ConfigEntry
    simp only [hv, hbr, Bool.not_true, Bool.false_eq_true, if_false, if_true,
      Bool.not_false, if_neg hg]
    split
    · rfl
    · rfl
  exact ⟨hgen "0" (by decide), hgen "4095" (by decide), hgen,
    fun hg hbr => ⟨hok "1" (by decide) hg hbr, hok "4094" (by decide) hg hbr⟩⟩

theorem addGroup_range_validation_witness :
    (vlan_hal_addGroup "brlan1" "0" true ⟨[], []⟩).1 = RETURN_ERR ∧
    (vlan_hal_addGroup "brlan1" "4095" true ⟨[], []⟩).1 = RETURN_ERR ∧
    (vlan_hal_addGroup "brlan1" "1" true ⟨[], []⟩).1 = RETURN_OK ∧
    (vlan_hal_addGroup "brlan1" "4094" true ⟨[], []⟩).1 = RETURN_OK :=
  ⟨(addGroup_range_validation "brlan1" true ⟨[], []⟩).1,
   (addGroup_range_validation "brlan1" true ⟨[], []⟩).2.1,
   ((addGroup_range_validation "brlan1" true ⟨[], []⟩).2.2.2 (by decide) (by decide)).1,
   ((addGroup_range_validation "brlan1" true ⟨[], []⟩).2.2.2 (by decide) (by decide)).2⟩

/-- C1: On a fresh group (bridge and Config Store entry absent), calling
`vlan_hal_addGroup` twice with identical valid arguments returns success
both times and leaves exactly one Config Store entry and exactly one
bridge of that name. -/
theorem addGroup_idempotent (g v : String) (st : VlanState)
    (hg : g ≠ "") (hv : isValidVlanId v = true)
    (hbr : bridgeExistsB g st = false)
    (hcs : st.configStore.any (fun e => e.1 == g) = false) :
    (vlan_hal_addGroup g v true st).1 = RETURN_OK ∧
    (vlan_hal_addGroup g v true (vlan_hal_addGroup g v true st).2).1 = RETURN_OK ∧
    (vlan_hal_addGroup g v true (vlan_hal_addGroup g v true st).2).2.configStore.countP
      (fun e => e.1 == g) = 1 ∧
    (vlan_hal_addGroup g v true (vlan_hal_addGroup g v true st).2).2.bridges.countP
      (fun b => b.1 == g) = 1 := by
  have h1 : vlan_hal_addGroup g v true st =
      (RETURN_OK, ⟨st.configStore ++ [(g, v)], st.bridges ++ [(g, [])]⟩) := by
    unfold vlan_hal_addGroup insert_VLAN_ConfigEntry
    simp [hv, hbr, hg, hcs]
  have hst1 : (vlan_hal_addGroup g v true st).2 =
      (⟨st.configStore ++ [(g, v)], st.bridges ++ [(g, [])]⟩ : VlanState) := by
    rw [h1]
  have hbr2 : bridgeExistsB g
      (⟨st.configStore ++ [(g, v)], st.bridges ++ [(g, [])]⟩ : VlanState) = true := by
    simp [bridgeExistsB]
  have hfind : (st.configStore ++ [(g, v)]).find? (fun e => e.1 == g) = some (g, v) := by
    rw [List.find?_append]
    have h0 : st.configStore.find? (fun e => e.1 == g) = none := by
      rw [List.find?_eq_none]
      intro x hx hpx
      rw [List.any_eq_false] at hcs
      exact hcs x hx hpx
    rw [h0]
    simp
  have h2 : vlan_hal_addGroup g v true
      (⟨st.configStore ++ [(g, v)], st.bridges ++ [(g, [])]⟩ : VlanState) =
      (RETURN_OK, ⟨st.configStore ++ [(g, v)], st.bridges ++ [(g, [])]⟩) := by
    unfold vlan_hal_addGroup
    simp [hv, hbr2, hfind]
  have hc0 : st.configStore.countP (fun e => e.1 == g) = 0 := by
    rw [List.countP_eq_zero]
    rw [List.any_eq_false] at hcs
    exact hcs
  have hb0 : st.bridges.countP (fun b => b.1 == g) = 0 := by
    rw [List.countP_eq_zero]
    have := hbr
    unfold bridgeExistsB at this
    rw [List.any_eq_false] at this
    exact this
  refine ⟨by rw [h1], ?_, ?_, ?_⟩
  · rw [hst1, h2]
  · rw [hst1, h2]
    simp [List.countP_append, hc0, List.countP_cons]
  · rw [hst1, h2]
    simp [List.countP_append, hb0, List.countP_cons]

theorem addGroup_idempotent_witness :
    (vlan_hal_addGroup "brlan0" "100" true ⟨[], []⟩).1 = RETURN_OK ∧
    (vlan_hal_addGroup "brlan0" "100" true
      (vlan_hal_addGroup "brlan0" "100" true ⟨[], []⟩).2).1 = RETURN_OK ∧
    (vlan_hal_addGroup "brlan0" "100" true
      (vlan_hal_addGroup "brlan0" "100" true ⟨[], []⟩).2).2.configStore.countP
      (fun e => e.1 == "brlan0") = 1 ∧
    (vlan_hal_addGroup "brlan0" "100" true
      (vlan_hal_addGroup "brlan0" "100" true ⟨[], []⟩).2).2.bridges.countP
      (fun b => b.1 == "brlan0") = 1 :=
  addGroup_idempotent "brlan0" "100" ⟨[], []⟩ (by decide) (by decide) (by decide) (by decide)

/-- C2: If `vlan_hal_addGroup` succeeds for a group with some VLAN ID, a
subsequent call for the same groupName with a different VLAN ID fails,
leaves the state unchanged, and the Config Store still maps the groupName
to the original VLAN ID. -/
theorem addGroup_conflict (g v1 v2 : String) (k1 k2 : Bool) (st : VlanState)
    (hne : v1 ≠ v2)
    (h1 : (vlan_hal_addGroup g v1 k1 st).1 = RETURN_OK) :
    (vlan_hal_addGroup g v2 k2 (vlan_hal_addGroup g v1 k1 st).2).1 = RETURN_ERR ∧
    (vlan_hal_addGroup g v2 k2 (vlan_hal_addGroup g v1 k1 st).2).2 =
      (vlan_hal_addGroup g v1 k1 st).2 ∧
    (vlan_hal_addGroup g v1 k1 st).2.configStore.find? (fun e => e.1 == g) =
      some (g, v1) ∧
    (vlan_hal_addGroup g v2 k2 (vlan_hal_addGroup g v1 k1 st).2).2.configStore.find?
      (fun e => e.1 == g) = some (g, v1) := by
  have key : bridgeExistsB g (vlan_hal_addGroup g v1 k1 st).2 = true ∧
      (vlan_hal_addGroup g v1 k1 st).2.configStore.find? (fun e => e.1 == g) =
        some (g, v1) := by
    by_cases hv1 : isValidVlanId v1 = true
    · by_cases hbr : bridgeExistsB g st = true
      · rcases hf : st.configStore.find? (fun e => e.1 == g) with _ | e
        · have herr : (vlan_hal_addGroup g v1 k1 st).1 = RETURN_ERR := by
            unfold vlan_hal_addGroup
            simp [hv1, hbr, hf]
          rw [herr] at h1
          exact absurd h1 (by decide)
        · by_cases hev : (e.2 == v1) = true
          · have hst1 : (vlan_hal_addGroup g v1 k1 st).2 = st := by
              unfold vlan_hal_addGroup
              simp [hv1, hbr, hf, hev]
            have hp := List.find?_some hf
            have he : e = (g, v1) := Prod.ext (beq_iff_eq.mp hp) (beq_iff_eq.mp hev)
            rw [hst1]
            refine ⟨hbr, ?_⟩
            rw [hf, he]
          · have herr : (vlan_hal_addGroup g v1 k1 st).1 = RETURN_ERR := by
              unfold vlan_hal_addGroup
              simp [hv1, hbr, hf, hev]
            rw [herr] at h1
            exact absurd h1 (by decide)
      · cases k1
        · have herr : (vlan_hal_addGroup g v1 false st).1 = RETURN_ERR := by
            unfold vlan_hal_addGroup
            simp [hv1, hbr]
          rw [herr] at h1
          exact absurd h1 (by decide)
        · by_cases hgE : g = ""
          · subst hgE
            have herr : (vlan_hal_addGroup "" v1 true st).1 = RETURN_ERR := by
              unfold vlan_hal_addGroup insert_VLAN_ConfigEntry
              simp [hv1, hbr]
            rw [herr] at h1
            exact absurd h1 (by decide)
          · have hst1 : (vlan_hal_addGroup g v1 true st).2 =
                (⟨(insert_VLAN_ConfigEntry g v1 st.configStore).2,
                  st.bridges ++ [(g, [])]⟩ : VlanState) := by
              unfold vlan_hal_addGroup
              simp [hv1, hbr]
            rw [hst1]
            refine ⟨by simp [bridgeExistsB], ?_⟩
            exact insert_find? g v1 st.configStore hgE
    · have herr : (vlan_hal_addGroup g v1 k1 st).1 = RETURN_ERR := by
        unfold vlan_hal_addGroup
        simp [hv1]
      rw [herr] at h1
      exact absurd h1 (by decide)
  obtain ⟨kbr, kfind⟩ := key
  have h2 := addGroup_second_conflict g v1 v2 k2 _ kbr kfind hne
  rw [h2]
  exact ⟨rfl, rfl, kfind, kfind⟩

theorem addGroup_conflict_witness :
    (vlan_hal_addGroup "brlan0" "200" true
        (vlan_hal_addGroup "brlan0" "100" true ⟨[], []⟩).2).1 = RETURN_ERR ∧
    (vlan_hal_addGroup "brlan0" "200" true
        (vlan_hal_addGroup "brlan0" "100" true ⟨[], []⟩).2).2 =
      (vlan_hal_addGroup "brlan0" "100" true ⟨[], []⟩).2 ∧
    (vlan_hal_addGroup "brlan0" "100" true ⟨[], []⟩).2.configStore.find?
      (fun e => e.1 == "brlan0") = some ("brlan0", "100") ∧
    (vlan_hal_addGroup "brlan0" "200" true
        (vlan_hal_addGroup "brlan0" "100" true ⟨[], []⟩).2).2.configStore.find?
      (fun e => e.1 == "brlan0") = some ("brlan0", "100") :=
  addGroup_conflict "brlan0" "100" "200" true true ⟨[], []⟩ (by decide) (by decide)

lemma mem_after_addMember (g i v : String) (st : VlanState)
    (hbr : bridgeExistsB g st = true) :
    memberInBridgeB i g v (addMember g i v st) = true := by
  unfold memberInBridgeB addMember
  simp only
  rw [List.find?_map]
  have hcomp : ((fun b : String × List (String × String) => b.1 == g) ∘
      (fun b : String × List (String × String) =>
        if b.1 == g then (b.1, b.2 ++ [(i, v)]) else b)) =
      fun b : String × List (String × String) => b.1 == g := by
    funext b
    by_cases hb : (b.1 == g) = true <;> simp [hb, Function.comp]
  rw [hcomp]
  unfold bridgeExistsB at hbr
  obtain ⟨b0, hb0⟩ := Option.isSome_iff_exists.mp
    (List.find?_isSome.mpr (List.any_eq_true.mp hbr))
  rw [hb0]
  have hp := List.find?_some hb0
  have he : b0.1 = g := beq_iff_eq.mp hp
  simp [he, List.any_append]

lemma not_mem_after_removeMember (g i v : String) (st : VlanState)
    (hbr : bridgeExistsB g st = true) :
    memberInBridgeB i g v (removeMember g i v st) = false := by
  unfold memberInBridgeB removeMember
  simp only
  rw [List.find?_map]
  have hcomp : ((fun b : String × List (String × String) => b.1 == g) ∘
      (fun b : String × List (String × String) =>
        if b.1 == g then
          (b.1, b.2.filter (fun m => !(m.1 == i && m.2 == v)))
        else b)) =
      fun b : String × List (String × String) => b.1 == g := by
    funext b
    by_cases hb : (b.1 == g) = true <;> simp [hb, Function.comp]
  rw [hcomp]
  unfold bridgeExistsB at hbr
  obtain ⟨b0, hb0⟩ := Option.isSome_iff_exists.mp
    (List.find?_isSome.mpr (List.any_eq_true.mp hbr))
  rw [hb0]
  have hp := List.find?_some hb0
  have he : b0.1 = g := beq_iff_eq.mp hp
  simp only [Option.map_some', he, beq_self_eq_true, if_true]
  rw [List.any_eq_false]
  intro m hm
  have hq := (List.mem_filter.mp hm).2
  simp only [Bool.not_eq_true] at hq ⊢
  simpa [imp_iff_not_or] using hq

lemma member_implies_bridge (i g v : String) (st : VlanState)
    (h : memberInBridgeB i g v st = true) : bridgeExistsB g st = true := by
  unfold memberInBridgeB at h
  unfold bridgeExistsB
  rcases hf : st.bridges.find? (fun b => b.1 == g) with _ | b
  · rw [hf] at h
    simp at h
  · have hmem := List.mem_of_find?_eq_some hf
    have hp := List.find?_some hf
    exact List.any_eq_true.mpr ⟨b, hmem, hp⟩

/-- C6: After a successful `vlan_hal_addInterface`, the membership query
reports the interface as a member of the group with that VLAN ID; a
subsequent `vlan_hal_delInterface` with the same arguments succeeds and
the query then reports it absent. -/
theorem interface_membership_roundtrip (g i v : String) (st : VlanState)
    (h1 : (vlan_hal_addInterface g i v true st).1 = RETURN_OK) :
    _is_this_interface_available_in_given_linux_bridge i g v
      (vlan_hal_addInterface g i v true st).2 = RETURN_OK ∧
    (vlan_hal_delInterface g i v true (vlan_hal_addInterface g i v true st).2).1 =
      RETURN_OK ∧
    _is_this_interface_available_in_given_linux_bridge i g v
      (vlan_hal_delInterface g i v true (vlan_hal_addInterface g i v true st).2).2 =
      RETURN_ERR := by
  have key : memberInBridgeB i g v (vlan_hal_addInterface g i v true st).2 = true := by
    by_cases hbr : bridgeExistsB g st = true
    · by_cases hv : isValidVlanId v = true
      · by_cases hm : memberInBridgeB i g v st = true
        · have hst1 : (vlan_hal_addInterface g i v true st).2 = st := by
            unfold vlan_hal_addInterface
            simp [hbr, hv, hm]
          rw [hst1]
          exact hm
        · by_cases htag : interfaceTaggedDifferentlyB i v st = true
          · have herr : (vlan_hal_addInterface g i v true st).1 = RETURN_ERR := by
              unfold vlan_hal_addInterface
              simp [hbr, hv, hm, htag]
            rw [herr] at h1
            exact absurd h1 (by decide)
          · have hst1 : (vlan_hal_addInterface g i v true st).2 = addMember g i v st := by
              unfold vlan_hal_addInterface
              simp [hbr, hv, hm, htag]
            rw [hst1]
            exact mem_after_addMember g i v st hbr
      · have herr : (vlan_hal_addInterface g i v true st).1 = RETURN_ERR := by
          unfold vlan_hal_addInterface
          simp [hbr, hv]
        rw [herr] at h1
        exact absurd h1 (by decide)
    · have herr : (vlan_hal_addInterface g i v true st).1 = RETURN_ERR := by
        unfold vlan_hal_addInterface
        simp [hbr]
      rw [herr] at h1
      exact absurd h1 (by decide)
  have hd : vlan_hal_delInterface g i v true (vlan_hal_addInterface g i v true st).2 =
      (RETURN_OK, removeMember g i v (vlan_hal_addInterface g i v true st).2) := by
    unfold vlan_hal_delInterface
    simp [key]
  refine ⟨?_, ?_, ?_⟩
  · unfold _is_this_interface_available_in_given_linux_bridge
    simp [key]
  · rw [hd]
  · rw [hd]
    unfold _is_this_interface_available_in_given_linux_bridge
    simp [not_mem_after_removeMember g i v (vlan_hal_addInterface g i v true st).2
      (member_implies_bridge i g v _ key)]

theorem interface_membership_roundtrip_witness :
    _is_this_interface_available_in_given_linux_bridge "eth0" "brlan0" "100"
      (vlan_hal_addInterface "brlan0" "eth0" "100" true
        ⟨[("brlan0", "100")], [("brlan0", [])]⟩).2 = RETURN_OK ∧
    (vlan_hal_delInterface "brlan0" "eth0" "100" true
      (vlan_hal_addInterface "brlan0" "eth0" "100" true
        ⟨[("brlan0", "100")], [("brlan0", [])]⟩).2).1 = RETURN_OK ∧
    _is_this_interface_available_in_given_linux_bridge "eth0" "brlan0" "100"
      (vlan_hal_delInterface "brlan0" "eth0" "100" true
        (vlan_hal_addInterface "brlan0" "eth0" "100" true
          ⟨[("brlan0", "100")], [("brlan0", [])]⟩).2).2 = RETURN_ERR :=
  interface_membership_roundtrip "brlan0" "eth0" "100"
    ⟨[("brlan0", "100")], [("brlan0", [])]⟩ (by decide)

lemma insert_preserves_nodup (g v : String) (s : ConfigStore)
    (h : (s.map Prod.fst).Nodup) :
    (((insert_VLAN_ConfigEntry g v s).2).map Prod.fst).Nodup := by
  unfold insert_VLAN_ConfigEntry
  split
  · exact h
  · split
    case isTrue hany =>
      show ((s.map (fun e => if e.1 == g then (g, v) else e)).map Prod.fst).Nodup
      have hkeys : (s.map (fun e => if e.1 == g then (g, v) else e)).map Prod.fst =
          s.map Prod.fst := by
        rw [List.map_map]
        apply List.map_congr_left
        intro a ha
        by_cases hae : (a.1 == g) = true
        · simp [Function.comp, hae, beq_iff_eq.mp hae]
        · simp [Function.comp, hae]
      rw [hkeys]
      exact h
    case isFalse hany =>
      simp only [List.map_append]
      rw [List.nodup_append]
      refine ⟨h, by simp, ?_⟩
      intro a ha hb
      simp only [List.map_cons, List.map_nil, List.mem_singleton] at hb
      subst hb
      simp only [List.mem_map] at ha
      obtain ⟨e, he, hfst⟩ := ha
      exact hany (List.any_eq_true.mpr ⟨e, he, by simp [hfst]⟩)

lemma delete_preserves_nodup (g : String) (s : ConfigStore)
    (h : (s.map Prod.fst).Nodup) :
    (((delete_VLAN_ConfigEntry g s).2).map Prod.fst).Nodup := by
  unfold delete_VLAN_ConfigEntry
  exact List.Nodup.sublist (List.Sublist.map Prod.fst (List.filter_sublist s)) h

lemma applyConfigOps_preserves_nodup : ∀ (ops : List ConfigOp) (s : ConfigStore),
    (s.map Prod.fst).Nodup → ((applyConfigOps ops s).map Prod.fst).Nodup := by
  intro ops
  induction ops with
  | nil => intro s h; exact h
  | cons op ops ih =>
    intro s h
    cases op with
    | ins g v => exact ih _ (insert_preserves_nodup g v s h)
    | del g => exact ih _ (delete_preserves_nodup g s h)

/-- C9: After every sequence of `insert_VLAN_ConfigEntry` and
`delete_VLAN_ConfigEntry` operations starting from the empty store, the
Config Store holds at most one entry per groupName (the key list has no
duplicates); in particular inserting the same groupName and vlanID twice
leaves exactly one entry for that groupName. -/
theorem configStore_at_most_one_entry_per_group :
    (∀ ops : List ConfigOp, ((applyConfigOps ops []).map Prod.fst).Nodup) ∧
    (∀ g v : String, g ≠ "" →
      (applyConfigOps [ConfigOp.ins g v, ConfigOp.ins g v] []).countP
        (fun e => e.1 == g) = 1) := by
  constructor
  · intro ops
    exact applyConfigOps_preserves_nodup ops [] (by simp)
  · intro g v hg
    simp only [applyConfigOps, applyConfigOp]
    unfold insert_VLAN_ConfigEntry
    simp [hg, List.countP_cons]

theorem configStore_at_most_one_entry_per_group_witness :
    ((applyConfigOps [ConfigOp.ins "brlan0" "100", ConfigOp.ins "brlan0" "100"] []).map
      Prod.fst).Nodup ∧
    (applyConfigOps [ConfigOp.ins "brlan0" "100", ConfigOp.ins "brlan0" "100"] []).countP
      (fun e => e.1 == "brlan0") = 1 :=
  ⟨configStore_at_most_one_entry_per_group.1
      [ConfigOp.ins "brlan0" "100", ConfigOp.ins "brlan0" "100"],
   configStore_at_most_one_entry_per_group.2 "brlan0" "100" (by decide)⟩
